import Mathlib

set_option maxHeartbeats 1000000
set_option maxRecDepth 4000

/-!
Verification development for the nanogui excerpt: the `RadioButton` widget
(include/nanogui/radiobutton.h) and the `Screen` class (src/screen.cpp).

The widget tree relevant to `RadioButton::toggle` is embedded as a list of
widget records indexed by position; a C++ pointer to a widget is modelled as
its index in that list.  `Screen` is embedded as a state record together with
functions that return the updated state and a trace of host-API (GLFW / GL)
calls.  Platform-conditional code (`#if defined(_WIN32) || defined(__linux__)`)
is modelled by a boolean parameter `w32lin`.
-/

/-- A widget as seen by `RadioButton::toggle`.  `isButton` models whether the
`dynamic_cast<Button *>` of the widget succeeds, `isRadioInstance` whether the
`dynamic_cast<RadioButton *>` succeeds.  `flagRadioButton` / `flagToggleButton`
model the bits of `mFlags`, `mPushed` the pushed state, `mIcon` / `mOtherIcon`
the two icon identifiers, `parent` the index of the parent widget, and
`mButtonGroup` the explicit group as a list of widget indices (C++ pointers are
modelled as indices). -/
structure WidgetB where
  isButton : Bool
  isRadioInstance : Bool
  flagRadioButton : Bool
  flagToggleButton : Bool
  mPushed : Bool
  mIcon : Int
  mOtherIcon : Int
  parent : Nat
  mButtonGroup : List Nat
deriving DecidableEq

/-- The default widget used for out-of-range reads (never reachable from the
C++ code, where every pointer is valid). -/
def wdefault : WidgetB :=
  { isButton := false, isRadioInstance := false, flagRadioButton := false,
    flagToggleButton := false, mPushed := false, mIcon := 0, mOtherIcon := 0,
    parent := 0, mButtonGroup := [] }

/-- The widget world: all widgets, indexed by position. -/
abbrev RWorld := List WidgetB

/-- Read the widget at index `i`. -/
def wget (w : RWorld) (i : Nat) : WidgetB := w.getD i wdefault

/-- Apply `f` to the widget at index `i` (no-op when out of range). -/
def updateAt : RWorld → Nat → (WidgetB → WidgetB) → RWorld
  | [], _, _ => []
  | b :: bs, 0, f => f b :: bs
  | b :: bs, Nat.succ n, f => b :: updateAt bs n f

/-- Map with the position index, starting at `k`. -/
def mapIdxW (f : Nat → WidgetB → WidgetB) : Nat → RWorld → RWorld
  | _, [] => []
  | k, b :: bs => f k b :: mapIdxW f (k + 1) bs

/-- The icon exchange `std::swap(mIcon, mOtherIcon)`. -/
def swapIcons (b : WidgetB) : WidgetB :=
  { b with mIcon := b.mOtherIcon, mOtherIcon := b.mIcon }

/-- The implicit branch of `RadioButton::toggle`: iterate over
`parent()->children()` (widgets sharing this widget's parent), and for every
other pushed radio button that is a `RadioButton` instance exchange its icon
pair.  The loop body only reads fields the loop never writes, so the
position-indexed map is exactly the sequential C++ loop. -/
def childIconPass (w : RWorld) (i : Nat) : RWorld :=
  mapIdxW (fun j b =>
    if b.isButton = true ∧ j ≠ i ∧ b.parent = (wget w i).parent ∧
        b.flagRadioButton = true ∧ b.mPushed = true ∧ b.isRadioInstance = true
    then swapIcons b else b) 0 w

/-- One step of the explicit branch of `RadioButton::toggle`: the loop body of
`for (auto b : mButtonGroup)`, for the group element at index `j`. -/
def groupIconStep (i : Nat) (acc : RWorld) (j : Nat) : RWorld :=
  if j ≠ i ∧ (wget acc j).flagRadioButton = true ∧ (wget acc j).mPushed = true ∧
      (wget acc j).isRadioInstance = true
  then updateAt acc j swapIcons else acc

/-- The explicit branch of `RadioButton::toggle`: iterate over `mButtonGroup`
sequentially (entries are `Button *`, modelled as indices). -/
def groupIconPass (w : RWorld) (i : Nat) : RWorld :=
  ((wget w i).mButtonGroup).foldl (groupIconStep i) w

/-- One step of the radio-unpush loop of `Button::toggle`. -/
def unpushStep (i : Nat) (acc : RWorld) (j : Nat) : RWorld :=
  if j ≠ i ∧ (wget acc j).flagRadioButton = true ∧ (wget acc j).mPushed = true
  then updateAt acc j (fun b => { b with mPushed := false }) else acc

/-- The sibling branch of the radio-unpush loop of `Button::toggle`: unpush
every other pushed radio-flagged sibling that casts to `Button`. -/
def childUnpushPass (w : RWorld) (i : Nat) : RWorld :=
  mapIdxW (fun j b =>
    if b.isButton = true ∧ j ≠ i ∧ b.parent = (wget w i).parent ∧
        b.flagRadioButton = true ∧ b.mPushed = true
    then { b with mPushed := false } else b) 0 w

/-- The radio-unpush phase of `Button::toggle`: runs only when this button
carries the radio flag, over the explicit group if non-empty, otherwise over
the siblings. -/
def unpushPhase (w : RWorld) (i : Nat) : RWorld :=
  if (wget w i).flagRadioButton = true then
    if (wget w i).mButtonGroup.isEmpty = true then childUnpushPass w i
    else ((wget w i).mButtonGroup).foldl (unpushStep i) w
  else w

/-- The pushed-state flip of the base toggle: a toggle-flagged button flips,
otherwise it is set pushed. -/
def pushFlip (b : WidgetB) : WidgetB :=
  { b with mPushed := if b.flagToggleButton then !b.mPushed else true }

/-- Modelled from the spec: `Button::toggle`, the base-class toggle that
`RadioButton::toggle` delegates to.  `Button` is not part of the excerpt (only
radiobutton.h and screen.cpp are); the spec states that the base toggle
"actually flips pushed state" and that within a radio group at most one button
is pushed after any toggle completes, so the base toggle is modelled as: when
this button carries the radio flag, unpush every other pushed radio-flagged
button of the group (explicit `mButtonGroup` if non-empty, otherwise the
siblings under the same parent that cast to `Button`), then flip this button's
pushed state. -/
def buttonToggle (w : RWorld) (i : Nat) : RWorld :=
  updateAt (unpushPhase w i) i pushFlip

/-- `RadioButton::toggle` (include/nanogui/radiobutton.h, lines 29-50): if the
explicit group is empty, scan the parent's children and exchange the icon pair
of every other pushed radio button; otherwise do the same over the explicit
group list; then exchange this button's own icon pair; finally delegate to
`Button::toggle`. -/
def radioToggle (w : RWorld) (i : Nat) : RWorld :=
  let w1 := if (wget w i).mButtonGroup.isEmpty = true
            then childIconPass w i else groupIconPass w i
  let w2 := updateAt w1 i swapIcons
  buttonToggle w2 i

/-- The radio group of button `i`: the explicit `mButtonGroup` entries that
carry the radio flag when the explicit list is non-empty, otherwise the
sibling buttons under the same parent that carry the radio flag. -/
def radioGroupIdx (w : RWorld) (i : Nat) : List Nat :=
  if (wget w i).mButtonGroup.isEmpty = true then
    (List.range w.length).filter (fun j =>
      (wget w j).isButton && ((wget w j).parent == (wget w i).parent) &&
      (wget w j).flagRadioButton)
  else
    ((wget w i).mButtonGroup).filter (fun j => (wget w j).flagRadioButton)

/-- The condition under which `RadioButton::toggle` on button `i` exchanges the
icon pair of a peer `j`, with the explicit group taking precedence over the
sibling scan. -/
def peerCond (w : RWorld) (i j : Nat) : Bool :=
  if (wget w i).mButtonGroup.isEmpty then
    (wget w j).isButton && decide (j ≠ i) &&
    ((wget w j).parent == (wget w i).parent) &&
    (wget w j).flagRadioButton && (wget w j).mPushed && (wget w j).isRadioInstance
  else
    decide (j ∈ (wget w i).mButtonGroup) && decide (j ≠ i) &&
    (wget w j).flagRadioButton && (wget w j).mPushed && (wget w j).isRadioInstance

/-- The icon pair of a widget, as an ordered pair. -/
def icons (b : WidgetB) : Int × Int := (b.mIcon, b.mOtherIcon)

/-- The icon pair of a widget, as an unordered pair (multiset). -/
def iconPair (b : WidgetB) : Multiset Int := b.mIcon ::ₘ {b.mOtherIcon}

/-- Every field of a widget except the two icons, bundled for congruence
reasoning: the behaviour of `Button::toggle` depends only on these. -/
def core (b : WidgetB) : Bool × Bool × Bool × Bool × Bool × Nat × List Nat :=
  (b.isButton, b.isRadioInstance, b.flagRadioButton, b.flagToggleButton,
   b.mPushed, b.parent, b.mButtonGroup)

/-- The `RadioButton` constructor: the `Button` base constructor stores the
caption and `uncheckdIcon` as `mIcon`, the member initialiser stores
`checkedIcon` as `mOtherIcon`, and `setFlags(Flags::RadioButton |
Flags::ToggleButton)` sets both flags.  A freshly built button is not pushed. -/
def radioButtonNew (parent : Nat) (checkedIcon uncheckdIcon : Int) : WidgetB :=
  { isButton := true, isRadioInstance := true, flagRadioButton := true,
    flagToggleButton := true, mPushed := false, mIcon := uncheckdIcon,
    mOtherIcon := checkedIcon, parent := parent, mButtonGroup := [] }

/-! Basic lemmas about the world accessors. -/

/-- The icon phase of `RadioButton::toggle`: peer icon pass (explicit list
taking precedence) followed by the swap of this button's own icon pair. -/
def iconPhase (w : RWorld) (i : Nat) : RWorld :=
  updateAt (if (wget w i).mButtonGroup.isEmpty = true
            then childIconPass w i else groupIconPass w i) i swapIcons

/-- A concrete world: two radio buttons under the same parent, the second one
pushed. -/
def rbA : WidgetB :=
  { isButton := true, isRadioInstance := true, flagRadioButton := true,
    flagToggleButton := true, mPushed := false, mIcon := 0, mOtherIcon := 7,
    parent := 0, mButtonGroup := [] }

def rbB : WidgetB := { rbA with mPushed := true, mIcon := 7, mOtherIcon := 0 }

def wC1 : RWorld := [rbA, rbB]

/-- A two-component integer vector (`Eigen::Vector2i`). -/
structure Vec2 where
  x : Int
  y : Int
deriving DecidableEq

/-- The zero vector `Vector2i(0, 0)`. -/
def vzero : Vec2 := { x := 0, y := 0 }

/-- Truncation of a rational toward zero, the semantics of C++ float-to-int
conversion (`.cast<int>()` and implicit conversions at call sites). -/
def truncQ (q : ℚ) : Int := Int.tdiv q.num q.den

/-- Componentwise division of an integer vector by a (pixel-ratio) scalar,
truncated toward zero. -/
def vdivTrunc (v : Vec2) (q : ℚ) : Vec2 :=
  { x := truncQ ((v.x : ℚ) / q), y := truncQ ((v.y : ℚ) / q) }

/-- Componentwise multiplication of an integer vector by a (pixel-ratio)
scalar, truncated toward zero. -/
def vmulTrunc (v : Vec2) (q : ℚ) : Vec2 :=
  { x := truncQ ((v.x : ℚ) * q), y := truncQ ((v.y : ℚ) * q) }

/-- The `Screen` state: the members of `Screen` manipulated by screen.cpp.
The native window handle is `Option Nat` (`nullptr` is `none`), the cursor
table is a list of optional cursor handles (a failed
`glfwCreateStandardCursor` yields `none`), and the background colour is an
RGBA quadruple of rationals. -/
structure ScreenState where
  mGLFWWindow : Option Nat
  mSize : Vec2
  mFBSize : Vec2
  mPixelRatio : ℚ
  mVisible : Bool
  mCaption : String
  mShutdownGLFWOnDestruct : Bool
  mFullscreen : Bool
  mBackground : ℚ × ℚ × ℚ × ℚ
  mCursors : List (Option Nat)
deriving DecidableEq

/-- Host-API calls observable in a trace.  `glViewport` arguments and similar
numeric parameters of drawing calls are tracked through the state fields, not
the trace alphabet. -/
inductive HostCall where
  | showWindow
  | hideWindow
  | setWindowTitle (t : String)
  | setWindowSize (x y : Int)
  | clearColor
  | clearBuffers
  | makeContextCurrent
  | getFramebufferSize
  | getWindowSize
  | viewport
  | drawContents
  | drawWidgets
  | swapBuffers
deriving DecidableEq

/-- `Screen::setVisible` (screen.cpp, lines 293-302): only when the stored
flag differs, store the new flag and show or hide the window. -/
def setVisible (s : ScreenState) (visible : Bool) : ScreenState × List HostCall :=
  if s.mVisible ≠ visible then
    ({ s with mVisible := visible },
     [if visible then HostCall.showWindow else HostCall.hideWindow])
  else (s, [])

/-- `Screen::setCaption` (screen.cpp, lines 304-309): only when the caption
differs, retitle the window and store the new caption. -/
def setCaption (s : ScreenState) (caption : String) : ScreenState × List HostCall :=
  if caption ≠ s.mCaption then
    ({ s with mCaption := caption }, [HostCall.setWindowTitle caption])
  else (s, [])

/-- Modelled from the spec: `Widget::setSize`, the base-class setter invoked
by `Screen::setSize`; `Widget` is not part of the excerpt.  Per the spec's
data model it stores the new logical size. -/
def widgetSetSize (s : ScreenState) (size : Vec2) : ScreenState :=
  { s with mSize := size }

/-- `Screen::setSize` (screen.cpp, lines 311-319): store the new size via
`Widget::setSize`, then unconditionally forward to `glfwSetWindowSize`,
scaling by the pixel ratio on Windows/Linux (`w32lin`). -/
def setSize (w32lin : Bool) (s : ScreenState) (size : Vec2) :
    ScreenState × List HostCall :=
  (widgetSetSize s size,
   if w32lin then
     [HostCall.setWindowSize (truncQ ((size.x : ℚ) * s.mPixelRatio))
        (truncQ ((size.y : ℚ) * s.mPixelRatio))]
   else [HostCall.setWindowSize size.x size.y])

/-- The outcome of `Screen::resizeCallbackEvent`: a normal return with a
boolean and the updated state, or a process abort (`abort()` after printing
the caught exception). -/
inductive ResizeOutcome where
  | ret (b : Bool) (s : ScreenState)
  | abort (msg : String)
deriving DecidableEq

/-- The window size used by `resizeCallbackEvent` after the platform
adjustment `size /= mPixelRatio` (Windows/Linux only). -/
def sizeAfter (w32lin : Bool) (winQ : Vec2) (s : ScreenState) : Vec2 :=
  if w32lin then vdivTrunc winQ s.mPixelRatio else winQ

/-- `Screen::resizeCallbackEvent` (screen.cpp, lines 355-376).  The callback
arguments are ignored by the source; the sizes are re-queried from GLFW
(`fbQ`, `winQ` are the query results).  The guard compares the STORED
`mFBSize` (not the fresh query) and the adjusted fresh window size against
`Vector2i(0, 0)`.  `re` is the virtual widget-tree handler `resizeEvent`,
which either returns a boolean or throws (`Except.error` carries the
`std::exception` message caught by the `catch` clause, which then prints and
calls `abort()`). -/
def resizeCallbackEvent (w32lin : Bool) (re : Vec2 → Except String Bool)
    (fbQ winQ : Vec2) (s : ScreenState) : ResizeOutcome :=
  let fbSize := fbQ
  let size := sizeAfter w32lin winQ s
  if s.mFBSize = vzero ∨ size = vzero then ResizeOutcome.ret false s
  else
    let s1 := { s with mFBSize := fbSize, mSize := size }
    match re s1.mSize with
    | Except.ok b => ResizeOutcome.ret b s1
    | Except.error e =>
        ResizeOutcome.abort ("Caught exception in event handler: " ++ e)

/-- `Screen::drawAll` (screen.cpp, lines 321-346), as a host-call trace plus
the updated state.  Order in the source: `glClearColor`, `glClear`,
`glfwMakeContextCurrent`, query framebuffer and window sizes, platform
adjustment (Windows/Linux rescale sizes by the stored pixel ratio; otherwise
re-derive the pixel ratio as `mFBSize[0] / mSize[0]` when `mSize[0]` is
non-zero), `glViewport`, `drawContents()`, `drawWidgets()` only when visible,
`glfwSwapBuffers`. -/
def drawAll (w32lin : Bool) (fbQ winQ : Vec2) (s : ScreenState) :
    List HostCall × ScreenState :=
  let state2 :=
    if w32lin then
      let size2 := vdivTrunc winQ s.mPixelRatio
      { s with mSize := size2, mFBSize := vmulTrunc size2 s.mPixelRatio }
    else
      let pr2 := if winQ.x ≠ 0 then (fbQ.x : ℚ) / (winQ.x : ℚ) else s.mPixelRatio
      { s with mSize := winQ, mFBSize := fbQ, mPixelRatio := pr2 }
  ([HostCall.clearColor, HostCall.clearBuffers, HostCall.makeContextCurrent,
    HostCall.getFramebufferSize, HostCall.getWindowSize, HostCall.viewport,
    HostCall.drawContents] ++
   (if s.mVisible then [HostCall.drawWidgets] else []) ++
   [HostCall.swapBuffers], state2)

/-- Position of the first occurrence of a call in a trace, counting from `k`. -/
def firstIdxAux : List HostCall → HostCall → Nat → Option Nat
  | [], _, _ => none
  | a :: t, e, k => if a = e then some k else firstIdxAux t e (k + 1)

/-- Whether the first occurrence of `a` strictly precedes the first occurrence
of `b` in the trace `t` (both must occur). -/
def callBefore (t : List HostCall) (a b : HostCall) : Bool :=
  match firstIdxAux t a 0, firstIdxAux t b 0 with
  | some i, some j => decide (i < j)
  | _, _ => false

/-- Whether a call occurs in the trace. -/
def occursIn (t : List HostCall) (a : HostCall) : Bool :=
  (firstIdxAux t a 0).isSome

abbrev Registry := List (Option Nat × Nat)

/-- `std::map` lookup (`find`). -/
def regFind : Registry → Option Nat → Option Nat
  | [], _ => none
  | p :: t, k => if p.1 = k then some p.2 else regFind t k

/-- `std::map` insertion-or-assignment (`operator[] =`). -/
def regInsert : Registry → Option Nat → Nat → Registry
  | [], k, v => [(k, v)]
  | p :: t, k, v => if p.1 = k then (k, v) :: t else p :: regInsert t k v

/-- `std::map::erase` by key (keys are unique, so removing every binding of
the key is the same operation). -/
def regErase : Registry → Option Nat → Registry
  | [], _ => []
  | p :: t, k => if p.1 = k then regErase t k else p :: regErase t k

/-- The seven host input-callback kinds registered by the `Screen`
constructor (screen.cpp, lines 159-247). -/
inductive InputKind where
  | cursorPos
  | mouseButton
  | key
  | char
  | drop
  | scroll
  | framebufferSize
deriving DecidableEq

/-- The dispatch performed by each of the seven callback lambdas: look the
window up in `__nanogui_screens`; if absent, drop the event; if the target
screen's `mProcessEvents` is unset, drop the event; otherwise route it to
that screen.  All seven lambdas share this structure, so the kind does not
influence the routing.  `procE` gives each screen's `mProcessEvents` flag
(a `ScreenCore` member outside the excerpt). -/
def routeCallback (r : Registry) (procE : Nat → Bool) (_ : InputKind)
    (w : Nat) : Option Nat :=
  match regFind r (some w) with
  | none => none
  | some sid => if procE sid then some sid else none

/-- Host-environment data consumed by the `Screen` constructor and
`Screen::initialize`: the result of `glfwCreateWindow` (`none` on failure),
whether the GLAD loader must run (`NANOGUI_GLAD` defined and not yet
initialised) and whether it succeeds, the window/framebuffer sizes the host
reports, the `GLFW_VISIBLE` attribute, the `get_pixel_ratio` result, and the
standard-cursor handles (`none` where creation fails). -/
structure HostCtx where
  createdWindow : Option Nat
  gladRequired : Bool
  gladOk : Bool
  fbSize : Vec2
  winSize : Vec2
  visibleAttrib : Bool
  pixelRatio : ℚ
  cursors : List (Option Nat)
deriving DecidableEq

/-- The default-constructed `Screen` (screen.cpp, lines 85-88): null window,
ownership flag unset, cursors zeroed.  `mVisible` is a `ScreenCore` member
outside the excerpt; it is modelled as initially false. -/
def screenDefault : ScreenState :=
  { mGLFWWindow := none, mSize := vzero, mFBSize := vzero, mPixelRatio := 1,
    mVisible := false, mCaption := "", mShutdownGLFWOnDestruct := false,
    mFullscreen := false,
    mBackground := (⟨3, 10, by decide, by decide⟩, ⟨3, 10, by decide, by decide⟩,
      ⟨8, 25, by decide, by decide⟩, 1), mCursors := [] }

/-- `Screen::initialize` (screen.cpp, lines 252-281): store the window handle
and the ownership flag, re-query the window and framebuffer sizes, compute the
pixel ratio, read the `GLFW_VISIBLE` attribute, register this screen in
`__nanogui_screens`, and create the standard cursors.  (The conditional
Windows/Linux `glfwSetWindowSize` rescale and the `ScreenCore::init` call do
not touch the modelled fields; in the constructor path the GLAD block has
already run.) -/
def screenInit (self : Nat) (h : HostCtx) (win : Nat)
    (shutdownOnDestruct : Bool) (s : ScreenState) (r : Registry) :
    ScreenState × Registry :=
  ({ s with
      mGLFWWindow := some win,
      mShutdownGLFWOnDestruct := shutdownOnDestruct, mSize := h.winSize,
      mFBSize := h.fbSize, mPixelRatio := h.pixelRatio,
      mVisible := h.visibleAttrib, mCursors := h.cursors },
   regInsert r (some win) self)

/-- The size/caption/attribute `Screen` constructor (screen.cpp, lines
90-250): set the window hints, create the window (throwing when
`glfwCreateWindow` returns null), run the GLAD loader when required (throwing
on failure), clear once, install the seven callback lambdas, and finish with
`initialize(mGLFWWindow, true)`, which registers the screen under its window
handle. -/
def screenCtor (self : Nat) (h : HostCtx) (size : Vec2) (caption : String)
    (fullscreen : Bool) (glMajor glMinor : Nat) (r : Registry) :
    Except String (ScreenState × Registry) :=
  match h.createdWindow with
  | none => Except.error ("Could not create an OpenGL " ++ toString glMajor ++
      "." ++ toString glMinor ++ " context!")
  | some win =>
    if h.gladRequired && !h.gladOk then Except.error "Could not initialize GLAD!"
    else
      let s0 := { screenDefault with
                    mCaption := caption, mFullscreen := fullscreen,
                    mFBSize := h.fbSize, mSize := size }
      Except.ok (screenInit self h win true s0 r)

/-- `Screen::~Screen` (screen.cpp, lines 283-291): erase this screen's entry
from `__nanogui_screens`, destroy every non-null cursor, and destroy the
native window exactly when one exists and `mShutdownGLFWOnDestruct` is set.
Returns the new registry, the list of destroyed cursor handles, and whether
the window was destroyed. -/
def screenDestruct (s : ScreenState) (r : Registry) :
    Registry × List Nat × Bool :=
  (regErase r s.mGLFWWindow, s.mCursors.filterMap id,
   s.mGLFWWindow.isSome && s.mShutdownGLFWOnDestruct)

/-- A concrete screen state whose logical size is (5, 5). -/
def sC2 : ScreenState := { screenDefault with mSize := { x := 5, y := 5 } }

/-- The widget-tree resize handler that always accepts. -/
def reOk : Vec2 → Except String Bool := fun _ => Except.ok true

/-- A concrete screen state with non-zero stored sizes. -/
def sC4a : ScreenState :=
  { screenDefault with
      mFBSize := { x := 100, y := 100 }, mSize := { x := 50, y := 50 } }

/-- The state after the first resize of the C4 counterexample: the stored
framebuffer size has become (0, 0). -/
def sC4b : ScreenState := { sC4a with mFBSize := vzero }

/-- The widget-tree resize handler that always throws. -/
def reErr : Vec2 → Except String Bool := fun _ => Except.error "boom"

/-- A concrete visible screen state. -/
def sC6 : ScreenState := { screenDefault with mVisible := true }

/-- A concrete host environment in which construction succeeds. -/
def hC7 : HostCtx :=
  { createdWindow := some 42, gladRequired := false, gladOk := true,
    fbSize := { x := 100, y := 100 }, winSize := { x := 50, y := 50 },
    visibleAttrib := true, pixelRatio := 1, cursors := [some 1, none, some 3] }

/-- The screen state the constructor produces in the environment `hC7`. -/
def sC7 : ScreenState :=
  { screenDefault with
      mGLFWWindow := some 42, mSize := { x := 50, y := 50 },
      mFBSize := { x := 100, y := 100 }, mPixelRatio := 1, mVisible := true,
      mCaption := "demo", mShutdownGLFWOnDestruct := true,
      mCursors := [some 1, none, some 3] }

/-- The registry after that construction. -/
def rC7 : Registry := [(some 42, 7)]

/-- A concrete host environment in which window creation fails. -/
def hC9 : HostCtx := { hC7 with createdWindow := none }

theorem wget_nil (i : Nat) : wget [] i = wdefault := by
  cases i <;> rfl

theorem wget_cons_zero (b : WidgetB) (bs : RWorld) : wget (b :: bs) 0 = b := rfl

theorem wget_cons_succ (b : WidgetB) (bs : RWorld) (n : Nat) :
    wget (b :: bs) (n + 1) = wget bs n := rfl

theorem wget_oob (w : RWorld) (j : Nat) (h : w.length ≤ j) : wget w j = wdefault := by
  induction w generalizing j with
  | nil => exact wget_nil j
  | cons b bs ih =>
    cases j with
    | zero => simp at h
    | succ n =>
      rw [wget_cons_succ]
      exact ih n (by simpa using h)

theorem length_updateAt (w : RWorld) (i : Nat) (f : WidgetB → WidgetB) :
    (updateAt w i f).length = w.length := by
  induction w generalizing i with
  | nil => rfl
  | cons b bs ih =>
    cases i with
    | zero => rfl
    | succ n => simpa [updateAt] using ih n

theorem wget_updateAt_ne (w : RWorld) (i : Nat) (f : WidgetB → WidgetB) (j : Nat)
    (h : j ≠ i) : wget (updateAt w i f) j = wget w j := by
  induction w generalizing i j with
  | nil => rfl
  | cons b bs ih =>
    cases i with
    | zero =>
      cases j with
      | zero => exact absurd rfl h
      | succ m => rfl
    | succ n =>
      cases j with
      | zero => rfl
      | succ m =>
        rw [updateAt, wget_cons_succ, wget_cons_succ]
        exact ih n m (fun hc => h (by rw [hc]))

theorem wget_updateAt_self (w : RWorld) (i : Nat) (f : WidgetB → WidgetB)
    (h : i < w.length) : wget (updateAt w i f) i = f (wget w i) := by
  induction w generalizing i with
  | nil => simp at h
  | cons b bs ih =>
    cases i with
    | zero => rfl
    | succ n =>
      rw [updateAt, wget_cons_succ, wget_cons_succ]
      exact ih n (by simpa using h)

theorem updateAt_oob (w : RWorld) (i : Nat) (f : WidgetB → WidgetB)
    (h : w.length ≤ i) : updateAt w i f = w := by
  induction w generalizing i with
  | nil => rfl
  | cons b bs ih =>
    cases i with
    | zero => simp at h
    | succ n => simp [updateAt, ih n (by simpa using h)]

theorem length_mapIdxW (f : Nat → WidgetB → WidgetB) (k : Nat) (w : RWorld) :
    (mapIdxW f k w).length = w.length := by
  induction w generalizing k with
  | nil => rfl
  | cons b bs ih => simp [mapIdxW, ih]

theorem wget_mapIdxW (f : Nat → WidgetB → WidgetB) (k : Nat) (w : RWorld) (j : Nat)
    (h : j < w.length) : wget (mapIdxW f k w) j = f (k + j) (wget w j) := by
  induction w generalizing k j with
  | nil => simp at h
  | cons b bs ih =>
    cases j with
    | zero => simp [mapIdxW, wget_cons_zero]
    | succ n =>
      rw [mapIdxW, wget_cons_succ, wget_cons_succ, ih (k + 1) n (by simpa using h)]
      ring_nf

theorem wget_mapIdxW_oob (f : Nat → WidgetB → WidgetB) (k : Nat) (w : RWorld)
    (j : Nat) (h : w.length ≤ j) : wget (mapIdxW f k w) j = wdefault :=
  wget_oob _ j (by rw [length_mapIdxW]; exact h)

/-! Preservation lemmas: the icon passes only touch the two icon fields, the
unpush pass only touches `mPushed`, and `Button::toggle` never touches the
icons. -/

theorem core_swapIcons (b : WidgetB) : core (swapIcons b) = core b := rfl

theorem icons_unpush (b : WidgetB) : icons { b with mPushed := false } = icons b := rfl

theorem core_updateAt_swapIcons (w : RWorld) (a j : Nat) :
    core (wget (updateAt w a swapIcons) j) = core (wget w j) := by
  by_cases ha : a < w.length
  · by_cases hj : j = a
    · subst hj
      rw [wget_updateAt_self w j _ ha, core_swapIcons]
    · rw [wget_updateAt_ne w a _ j hj]
  · rw [updateAt_oob w a _ (Nat.le_of_not_lt ha)]

theorem core_childIconPass (w : RWorld) (i j : Nat) :
    core (wget (childIconPass w i) j) = core (wget w j) := by
  by_cases hj : j < w.length
  · rw [childIconPass, wget_mapIdxW _ 0 w j hj]
    by_cases hc : (wget w j).isButton = true ∧ (0 + j) ≠ i ∧
        (wget w j).parent = (wget w i).parent ∧ (wget w j).flagRadioButton = true ∧
        (wget w j).mPushed = true ∧ (wget w j).isRadioInstance = true
    · rw [if_pos hc, core_swapIcons]
    · rw [if_neg hc]
  · rw [childIconPass, wget_mapIdxW_oob _ 0 w j (Nat.le_of_not_lt hj),
      wget_oob w j (Nat.le_of_not_lt hj)]

theorem core_groupIconStep (i : Nat) (acc : RWorld) (a j : Nat) :
    core (wget (groupIconStep i acc a) j) = core (wget acc j) := by
  rw [groupIconStep]
  by_cases hc : a ≠ i ∧ (wget acc a).flagRadioButton = true ∧
      (wget acc a).mPushed = true ∧ (wget acc a).isRadioInstance = true
  · rw [if_pos hc, core_updateAt_swapIcons]
  · rw [if_neg hc]

theorem core_groupIconFold (i : Nat) (g : List Nat) (w : RWorld) (j : Nat) :
    core (wget (g.foldl (groupIconStep i) w) j) = core (wget w j) := by
  induction g generalizing w with
  | nil => rfl
  | cons a t ih => rw [List.foldl_cons, ih, core_groupIconStep]

theorem core_groupIconPass (w : RWorld) (i j : Nat) :
    core (wget (groupIconPass w i) j) = core (wget w j) :=
  core_groupIconFold i _ w j

theorem length_groupIconFold (i : Nat) (g : List Nat) (w : RWorld) :
    (g.foldl (groupIconStep i) w).length = w.length := by
  induction g generalizing w with
  | nil => rfl
  | cons a t ih =>
    rw [List.foldl_cons, ih, groupIconStep]
    by_cases hc : a ≠ i ∧ (wget w a).flagRadioButton = true ∧
        (wget w a).mPushed = true ∧ (wget w a).isRadioInstance = true
    · rw [if_pos hc, length_updateAt]
    · rw [if_neg hc]

theorem length_childIconPass (w : RWorld) (i : Nat) :
    (childIconPass w i).length = w.length := length_mapIdxW _ 0 w

theorem length_groupIconPass (w : RWorld) (i : Nat) :
    (groupIconPass w i).length = w.length := length_groupIconFold i _ w

theorem radioToggle_eq_phase (w : RWorld) (i : Nat) :
    radioToggle w i = buttonToggle (iconPhase w i) i := rfl

theorem core_iconPhase (w : RWorld) (i j : Nat) :
    core (wget (iconPhase w i) j) = core (wget w j) := by
  rw [iconPhase, core_updateAt_swapIcons]
  by_cases he : (wget w i).mButtonGroup.isEmpty = true
  · rw [if_pos he, core_childIconPass]
  · rw [if_neg he, core_groupIconPass]

theorem length_iconPhase (w : RWorld) (i : Nat) :
    (iconPhase w i).length = w.length := by
  rw [iconPhase, length_updateAt]
  by_cases he : (wget w i).mButtonGroup.isEmpty = true
  · rw [if_pos he, length_childIconPass]
  · rw [if_neg he, length_groupIconPass]

theorem core_fields (b b' : WidgetB) (h : core b = core b') :
    b.isButton = b'.isButton ∧ b.isRadioInstance = b'.isRadioInstance ∧
    b.flagRadioButton = b'.flagRadioButton ∧
    b.flagToggleButton = b'.flagToggleButton ∧ b.mPushed = b'.mPushed ∧
    b.parent = b'.parent ∧ b.mButtonGroup = b'.mButtonGroup := by
  simp only [core, Prod.mk.injEq] at h
  exact h

/-! The unpush loop of the modelled `Button::toggle`: single-step shape,
monotonicity, and coverage. -/

theorem wget_unpushStep (i : Nat) (acc : RWorld) (a j : Nat) :
    wget (unpushStep i acc a) j = wget acc j ∨
    wget (unpushStep i acc a) j = { wget acc j with mPushed := false } := by
  rw [unpushStep]
  by_cases hc : a ≠ i ∧ (wget acc a).flagRadioButton = true ∧
      (wget acc a).mPushed = true
  · rw [if_pos hc]
    by_cases hj : j = a
    · subst hj
      by_cases hr : j < acc.length
      · rw [wget_updateAt_self acc j _ hr]
        exact Or.inr rfl
      · rw [updateAt_oob acc j _ (Nat.le_of_not_lt hr)]
        exact Or.inl rfl
    · rw [wget_updateAt_ne acc a _ j hj]
      exact Or.inl rfl
  · rw [if_neg hc]
    exact Or.inl rfl

theorem flag_unpushStep (i : Nat) (acc : RWorld) (a j : Nat) :
    (wget (unpushStep i acc a) j).flagRadioButton = (wget acc j).flagRadioButton := by
  rcases wget_unpushStep i acc a j with h | h <;> rw [h]

theorem pushed_unpushStep_mono (i : Nat) (acc : RWorld) (a j : Nat)
    (h : (wget (unpushStep i acc a) j).mPushed = true) :
    (wget acc j).mPushed = true := by
  rcases wget_unpushStep i acc a j with he | he <;> rw [he] at h
  · exact h
  · simp at h

theorem pushed_unpushFold_stays_false (i : Nat) (g : List Nat) (w : RWorld) (j : Nat)
    (h : (wget w j).mPushed = false) :
    (wget (g.foldl (unpushStep i) w) j).mPushed = false := by
  induction g generalizing w with
  | nil => exact h
  | cons a t ih =>
    rw [List.foldl_cons]
    refine ih (unpushStep i w a) ?_
    rcases wget_unpushStep i w a j with he | he
    · rw [he]; exact h
    · rw [he]

theorem pushed_unpushStep_self (i : Nat) (w : RWorld) (j : Nat) (hne : j ≠ i)
    (hf : (wget w j).flagRadioButton = true) :
    (wget (unpushStep i w j) j).mPushed = false := by
  rw [unpushStep]
  by_cases hp : (wget w j).mPushed = true
  · rw [if_pos ⟨hne, hf, hp⟩]
    by_cases hr : j < w.length
    · rw [wget_updateAt_self w j _ hr]
    · exfalso
      rw [wget_oob w j (Nat.le_of_not_lt hr)] at hp
      simp [wdefault] at hp
  · rw [if_neg (by tauto)]
    simpa using hp

theorem unpushFold_covers (i : Nat) (g : List Nat) (j : Nat) (hne : j ≠ i) :
    ∀ w : RWorld, j ∈ g → (wget w j).flagRadioButton = true →
    (wget (g.foldl (unpushStep i) w) j).mPushed = false := by
  induction g with
  | nil => intro w hm; simp at hm
  | cons a t ih =>
    intro w hm hf
    rw [List.foldl_cons]
    rcases List.mem_cons.mp hm with hja | hjt
    · subst hja
      exact pushed_unpushFold_stays_false i t _ j (pushed_unpushStep_self i w j hne hf)
    · exact ih (unpushStep i w a) hjt (by rw [flag_unpushStep]; exact hf)

/-- After the modelled `Button::toggle` on a radio-flagged button `i`, every
other member of `i`'s radio group is unpushed. -/
theorem pushed_buttonToggle_ne (w : RWorld) (i j : Nat)
    (hflag : (wget w i).flagRadioButton = true) (hne : j ≠ i)
    (hmem : j ∈ radioGroupIdx w i) :
    (wget (buttonToggle w i) j).mPushed = false := by
  rw [buttonToggle, wget_updateAt_ne _ i _ j hne, unpushPhase, if_pos hflag]
  by_cases he : (wget w i).mButtonGroup.isEmpty = true
  · rw [if_pos he, childUnpushPass]
    rw [radioGroupIdx, if_pos he] at hmem
    rcases List.mem_filter.mp hmem with ⟨hrange, hprops⟩
    have hj : j < w.length := List.mem_range.mp hrange
    simp only [Bool.and_eq_true, beq_iff_eq] at hprops
    obtain ⟨⟨hbtn, hpar⟩, hrad⟩ := hprops
    rw [wget_mapIdxW _ 0 w j hj]
    by_cases hp : (wget w j).mPushed = true
    · rw [if_pos ⟨hbtn, by simpa using hne, hpar, hrad, hp⟩]
    · rw [if_neg (by tauto)]
      simpa using hp
  · rw [if_neg he]
    rw [radioGroupIdx, if_neg he] at hmem
    rcases List.mem_filter.mp hmem with ⟨hg, hrad⟩
    exact unpushFold_covers i _ j hne w hg hrad

/-- The radio group is determined by the non-icon fields of the widgets. -/
theorem radioGroupIdx_congr (w v : RWorld) (i : Nat) (hl : w.length = v.length)
    (h : ∀ j, core (wget w j) = core (wget v j)) :
    radioGroupIdx w i = radioGroupIdx v i := by
  obtain ⟨-, -, -, -, -, hpar, hgrp⟩ := core_fields _ _ (h i)
  rw [radioGroupIdx, radioGroupIdx, hl, hgrp]
  by_cases he : (wget v i).mButtonGroup.isEmpty = true
  · rw [if_pos he, if_pos he]
    refine List.filter_congr ?_
    intro j _
    obtain ⟨hbtn, -, hrad, -, -, hparj, -⟩ := core_fields _ _ (h j)
    rw [hbtn, hrad, hparj, hpar]
  · rw [if_neg he, if_neg he]
    refine List.filter_congr ?_
    intro j _
    obtain ⟨-, -, hrad, -, -, -, -⟩ := core_fields _ _ (h j)
    rw [hrad]

/-- After `RadioButton::toggle` on a radio-flagged button `i`, every other
member of `i`'s radio group is unpushed. -/
theorem pushed_radioToggle_ne (w : RWorld) (i j : Nat)
    (hflag : (wget w i).flagRadioButton = true) (hne : j ≠ i)
    (hmem : j ∈ radioGroupIdx w i) :
    (wget (radioToggle w i) j).mPushed = false := by
  rw [radioToggle_eq_phase]
  have hflag2 : (wget (iconPhase w i) i).flagRadioButton = true := by
    obtain ⟨-, -, hrad, -, -, -, -⟩ := core_fields _ _ (core_iconPhase w i i)
    rw [hrad]; exact hflag
  have hmem2 : j ∈ radioGroupIdx (iconPhase w i) i := by
    rw [radioGroupIdx_congr (iconPhase w i) w i (length_iconPhase w i)
      (fun j => core_iconPhase w i j)]
    exact hmem
  exact pushed_buttonToggle_ne (iconPhase w i) i j hflag2 hne hmem2

/-- C1.  For every radio group (explicit button-group list, or the implicit
group of sibling buttons under the same parent carrying the RadioButton flag),
after any call to `RadioButton::toggle()` completes, at most one button of that
group is in the pushed state: any two pushed group members coincide.
`Button::toggle` is modelled from the spec (see `buttonToggle`). -/
theorem radio_group_at_most_one_pushed (w : RWorld) (i j k : Nat)
    (hflag : (wget w i).flagRadioButton = true)
    (hj : j ∈ radioGroupIdx w i) (hk : k ∈ radioGroupIdx w i)
    (hpj : (wget (radioToggle w i) j).mPushed = true)
    (hpk : (wget (radioToggle w i) k).mPushed = true) : j = k := by
  by_cases hji : j = i
  · by_cases hki : k = i
    · rw [hji, hki]
    · exact absurd hpk (by rw [pushed_radioToggle_ne w i k hflag hki hk]; simp)
  · exact absurd hpj (by rw [pushed_radioToggle_ne w i j hflag hji hj]; simp)

theorem radio_group_at_most_one_pushed_witness :
    (wget wC1 0).flagRadioButton = true ∧ 0 ∈ radioGroupIdx wC1 0 ∧
    (wget (radioToggle wC1 0) 0).mPushed = true ∧ (0 : Nat) = 0 :=
  ⟨by decide, by decide, by decide,
   radio_group_at_most_one_pushed wC1 0 0 0 (by decide) (by decide) (by decide)
     (by decide) (by decide)⟩

/-! Congruence: the modelled `Button::toggle` reads and writes only the
non-icon (`core`) fields, so two worlds that agree on all cores keep agreeing
on all cores after the base toggle. -/

theorem core_pushfalse_congr (b b' : WidgetB) (h : core b = core b') :
    core { b with mPushed := false } = core { b' with mPushed := false } := by
  obtain ⟨h1, h2, h3, h4, h5, h6, h7⟩ := core_fields _ _ h
  simp [core, h1, h2, h3, h4, h6, h7]

theorem core_pushflip_congr (b b' : WidgetB) (h : core b = core b') :
    core (pushFlip b) = core (pushFlip b') := by
  obtain ⟨h1, h2, h3, h4, h5, h6, h7⟩ := core_fields _ _ h
  simp [core, pushFlip, h1, h2, h3, h4, h5, h6, h7]

theorem unpushStep_core_congr (i a : Nat) (w v : RWorld) (hl : w.length = v.length)
    (h : ∀ j, core (wget w j) = core (wget v j)) :
    (unpushStep i w a).length = (unpushStep i v a).length ∧
    ∀ j, core (wget (unpushStep i w a) j) = core (wget (unpushStep i v a) j) := by
  obtain ⟨-, -, hrad, -, hpsh, -, -⟩ := core_fields _ _ (h a)
  rw [unpushStep, unpushStep]
  by_cases hc : a ≠ i ∧ (wget w a).flagRadioButton = true ∧ (wget w a).mPushed = true
  · rw [if_pos hc, if_pos (by rw [← hrad, ← hpsh]; exact hc)]
    refine ⟨by rw [length_updateAt, length_updateAt, hl], ?_⟩
    intro j
    by_cases hj : j = a
    · subst hj
      by_cases hr : j < w.length
      · rw [wget_updateAt_self w j _ hr, wget_updateAt_self v j _ (hl ▸ hr)]
        exact core_pushfalse_congr _ _ (h j)
      · rw [updateAt_oob w j _ (Nat.le_of_not_lt hr),
          updateAt_oob v j _ (hl ▸ Nat.le_of_not_lt hr)]
        exact h j
    · rw [wget_updateAt_ne w a _ j hj, wget_updateAt_ne v a _ j hj]
      exact h j
  · rw [if_neg hc, if_neg (by rw [← hrad, ← hpsh]; exact hc)]
    exact ⟨hl, h⟩

theorem unpushFold_core_congr (i : Nat) (g : List Nat) :
    ∀ w v : RWorld, w.length = v.length →
    (∀ j, core (wget w j) = core (wget v j)) →
    (g.foldl (unpushStep i) w).length = (g.foldl (unpushStep i) v).length ∧
    ∀ j, core (wget (g.foldl (unpushStep i) w) j) =
         core (wget (g.foldl (unpushStep i) v) j) := by
  induction g with
  | nil => intro w v hl h; exact ⟨hl, h⟩
  | cons a t ih =>
    intro w v hl h
    rw [List.foldl_cons, List.foldl_cons]
    obtain ⟨hl', h'⟩ := unpushStep_core_congr i a w v hl h
    exact ih (unpushStep i w a) (unpushStep i v a) hl' h'

theorem childUnpushPass_core_congr (w v : RWorld) (i : Nat)
    (hl : w.length = v.length) (h : ∀ j, core (wget w j) = core (wget v j)) :
    (childUnpushPass w i).length = (childUnpushPass v i).length ∧
    ∀ j, core (wget (childUnpushPass w i) j) = core (wget (childUnpushPass v i) j) := by
  obtain ⟨-, -, -, -, -, hpar, -⟩ := core_fields _ _ (h i)
  rw [childUnpushPass, childUnpushPass]
  refine ⟨by rw [length_mapIdxW, length_mapIdxW, hl], ?_⟩
  intro j
  by_cases hj : j < w.length
  · rw [wget_mapIdxW _ 0 w j hj, wget_mapIdxW _ 0 v j (hl ▸ hj)]
    obtain ⟨h1, -, h3, -, h5, h6, -⟩ := core_fields _ _ (h j)
    by_cases hc : (wget w j).isButton = true ∧ (0 + j) ≠ i ∧
        (wget w j).parent = (wget w i).parent ∧
        (wget w j).flagRadioButton = true ∧ (wget w j).mPushed = true
    · rw [if_pos hc, if_pos (by rw [← h1, ← h3, ← h5, ← h6, ← hpar]; exact hc)]
      exact core_pushfalse_congr _ _ (h j)
    · rw [if_neg hc, if_neg (by rw [← h1, ← h3, ← h5, ← h6, ← hpar]; exact hc)]
      exact h j
  · rw [wget_mapIdxW_oob _ 0 w j (Nat.le_of_not_lt hj),
      wget_mapIdxW_oob _ 0 v j (hl ▸ Nat.le_of_not_lt hj)]

theorem unpushPhase_core_congr (w v : RWorld) (i : Nat)
    (hl : w.length = v.length) (h : ∀ j, core (wget w j) = core (wget v j)) :
    (unpushPhase w i).length = (unpushPhase v i).length ∧
    ∀ j, core (wget (unpushPhase w i) j) = core (wget (unpushPhase v i) j) := by
  obtain ⟨-, -, hrad, -, -, -, hgrp⟩ := core_fields _ _ (h i)
  rw [unpushPhase, unpushPhase, hrad, hgrp]
  by_cases hf : (wget v i).flagRadioButton = true
  · rw [if_pos hf, if_pos hf]
    by_cases he : (wget v i).mButtonGroup.isEmpty = true
    · rw [if_pos he, if_pos he]
      exact childUnpushPass_core_congr w v i hl h
    · rw [if_neg he, if_neg he]
      exact unpushFold_core_congr i _ w v hl h
  · rw [if_neg hf, if_neg hf]
    exact ⟨hl, h⟩

theorem buttonToggle_core_congr (w v : RWorld) (i : Nat)
    (hl : w.length = v.length) (h : ∀ j, core (wget w j) = core (wget v j))
    (j : Nat) :
    core (wget (buttonToggle w i) j) = core (wget (buttonToggle v i) j) := by
  obtain ⟨hul, hup⟩ := unpushPhase_core_congr w v i hl h
  rw [buttonToggle, buttonToggle]
  by_cases hj : j = i
  · rw [hj]
    by_cases hr : i < (unpushPhase w i).length
    · rw [wget_updateAt_self _ i _ hr, wget_updateAt_self _ i _ (hul ▸ hr)]
      exact core_pushflip_congr _ _ (hup i)
    · rw [updateAt_oob _ i _ (Nat.le_of_not_lt hr),
        updateAt_oob _ i _ (hul ▸ Nat.le_of_not_lt hr)]
      exact hup i
  · rw [wget_updateAt_ne _ i _ j hj, wget_updateAt_ne _ i _ j hj]
    exact hup j

/-! The base toggle never touches the icon fields. -/

theorem icons_pushFlip (b : WidgetB) : icons (pushFlip b) = icons b := rfl

theorem icons_updateAt (w : RWorld) (i : Nat) (f : WidgetB → WidgetB)
    (hf : ∀ b, icons (f b) = icons b) (j : Nat) :
    icons (wget (updateAt w i f) j) = icons (wget w j) := by
  by_cases hr : i < w.length
  · by_cases hj : j = i
    · rw [hj, wget_updateAt_self w i f hr, hf]
    · rw [wget_updateAt_ne w i f j hj]
  · rw [updateAt_oob w i f (Nat.le_of_not_lt hr)]

theorem icons_unpushStep (i : Nat) (acc : RWorld) (a j : Nat) :
    icons (wget (unpushStep i acc a) j) = icons (wget acc j) := by
  rcases wget_unpushStep i acc a j with h | h
  · rw [h]
  · rw [h]; rfl

theorem icons_unpushFold (i : Nat) (g : List Nat) :
    ∀ (w : RWorld) (j : Nat),
    icons (wget (g.foldl (unpushStep i) w) j) = icons (wget w j) := by
  induction g with
  | nil => intro w j; rfl
  | cons a t ih =>
    intro w j
    rw [List.foldl_cons, ih, icons_unpushStep]

theorem icons_childUnpushPass (w : RWorld) (i j : Nat) :
    icons (wget (childUnpushPass w i) j) = icons (wget w j) := by
  by_cases hj : j < w.length
  · rw [childUnpushPass, wget_mapIdxW _ 0 w j hj]
    by_cases hc : (wget w j).isButton = true ∧ (0 + j) ≠ i ∧
        (wget w j).parent = (wget w i).parent ∧
        (wget w j).flagRadioButton = true ∧ (wget w j).mPushed = true
    · rw [if_pos hc]; rfl
    · rw [if_neg hc]
  · rw [childUnpushPass, wget_mapIdxW_oob _ 0 w j (Nat.le_of_not_lt hj),
      wget_oob w j (Nat.le_of_not_lt hj)]

theorem icons_buttonToggle (w : RWorld) (i j : Nat) :
    icons (wget (buttonToggle w i) j) = icons (wget w j) := by
  rw [buttonToggle, icons_updateAt _ i pushFlip icons_pushFlip j, unpushPhase]
  by_cases hf : (wget w i).flagRadioButton = true
  · rw [if_pos hf]
    by_cases he : (wget w i).mButtonGroup.isEmpty = true
    · rw [if_pos he, icons_childUnpushPass]
    · rw [if_neg he, icons_unpushFold]
  · rw [if_neg hf]

/-! The icon passes leave the toggled button itself alone, and act on a peer
exactly under `peerCond`. -/

theorem wget_groupIconStep_ne (i : Nat) (acc : RWorld) (a j : Nat) (h : j ≠ a) :
    wget (groupIconStep i acc a) j = wget acc j := by
  rw [groupIconStep]
  by_cases hc : a ≠ i ∧ (wget acc a).flagRadioButton = true ∧
      (wget acc a).mPushed = true ∧ (wget acc a).isRadioInstance = true
  · rw [if_pos hc, wget_updateAt_ne acc a _ j (by exact h)]
  · rw [if_neg hc]

theorem wget_groupIconFold_self (i : Nat) (g : List Nat) :
    ∀ w : RWorld, wget (g.foldl (groupIconStep i) w) i = wget w i := by
  induction g with
  | nil => intro w; rfl
  | cons a t ih =>
    intro w
    rw [List.foldl_cons, ih]
    by_cases ha : a = i
    · rw [ha, groupIconStep, if_neg (by tauto)]
    · rw [wget_groupIconStep_ne i w a i (fun hc => ha hc.symm)]

theorem wget_groupIconFold_notmem (i : Nat) (g : List Nat) :
    ∀ (w : RWorld) (j : Nat), j ∉ g →
    wget (g.foldl (groupIconStep i) w) j = wget w j := by
  induction g with
  | nil => intro w j _; rfl
  | cons a t ih =>
    intro w j hm
    rw [List.foldl_cons, ih _ j (fun hc => hm (List.mem_cons_of_mem a hc)),
      wget_groupIconStep_ne i w a j (fun hc => hm (hc ▸ List.mem_cons_self a t))]

theorem wget_childIconPass_self (w : RWorld) (i : Nat) :
    wget (childIconPass w i) i = wget w i := by
  by_cases hi : i < w.length
  · rw [childIconPass, wget_mapIdxW _ 0 w i hi, if_neg (by simp)]
  · rw [childIconPass, wget_mapIdxW_oob _ 0 w i (Nat.le_of_not_lt hi),
      wget_oob w i (Nat.le_of_not_lt hi)]

theorem wget_groupIconFold_mem (i : Nat) (g : List Nat) :
    ∀ (w : RWorld) (j : Nat), j ∈ g → g.Nodup →
    wget (g.foldl (groupIconStep i) w) j =
      (if j ≠ i ∧ (wget w j).flagRadioButton = true ∧ (wget w j).mPushed = true ∧
          (wget w j).isRadioInstance = true
       then swapIcons (wget w j) else wget w j) := by
  induction g with
  | nil => intro w j hm; simp at hm
  | cons a t ih =>
    intro w j hm hnd
    rw [List.foldl_cons]
    rcases List.mem_cons.mp hm with hja | hjt
    · have hnt : j ∉ t := by
        rw [hja]; exact (List.nodup_cons.mp hnd).1
      rw [wget_groupIconFold_notmem i t (groupIconStep i w a) j hnt, ← hja,
        groupIconStep]
      by_cases hc : j ≠ i ∧ (wget w j).flagRadioButton = true ∧
          (wget w j).mPushed = true ∧ (wget w j).isRadioInstance = true
      · rw [if_pos hc, if_pos hc]
        by_cases hr : j < w.length
        · rw [wget_updateAt_self w j _ hr]
        · exfalso
          have := hc.2.2.1
          rw [wget_oob w j (Nat.le_of_not_lt hr)] at this
          simp [wdefault] at this
      · rw [if_neg hc, if_neg hc]
    · have hja : j ≠ a := by
        intro hc
        rw [hc] at hjt
        exact (List.nodup_cons.mp hnd).1 hjt
      rw [ih (groupIconStep i w a) j hjt (List.nodup_cons.mp hnd).2,
        wget_groupIconStep_ne i w a j hja]

theorem wget_iconPhase_self (w : RWorld) (i : Nat) (hi : i < w.length) :
    wget (iconPhase w i) i = swapIcons (wget w i) := by
  rw [iconPhase]
  by_cases he : (wget w i).mButtonGroup.isEmpty = true
  · rw [if_pos he,
      wget_updateAt_self _ i _ (by rw [length_childIconPass]; exact hi),
      wget_childIconPass_self]
  · rw [if_neg he,
      wget_updateAt_self _ i _ (by rw [length_groupIconPass]; exact hi),
      groupIconPass, wget_groupIconFold_self]

theorem peerCond_empty_iff (w : RWorld) (i j : Nat)
    (he : (wget w i).mButtonGroup.isEmpty = true) :
    peerCond w i j = true ↔
      ((wget w j).isButton = true ∧ j ≠ i ∧
       (wget w j).parent = (wget w i).parent ∧
       (wget w j).flagRadioButton = true ∧ (wget w j).mPushed = true ∧
       (wget w j).isRadioInstance = true) := by
  simp [peerCond, he, Bool.and_eq_true, decide_eq_true_eq, beq_iff_eq]
  tauto

theorem peerCond_group_iff (w : RWorld) (i j : Nat)
    (he : ¬ (wget w i).mButtonGroup.isEmpty = true) :
    peerCond w i j = true ↔
      (j ∈ (wget w i).mButtonGroup ∧ j ≠ i ∧
       (wget w j).flagRadioButton = true ∧ (wget w j).mPushed = true ∧
       (wget w j).isRadioInstance = true) := by
  simp [peerCond, he, Bool.and_eq_true, decide_eq_true_eq, beq_iff_eq]
  tauto

theorem wget_iconPhase_peer (w : RWorld) (i j : Nat) (hne : j ≠ i)
    (hnd : ((wget w i).mButtonGroup).Nodup) :
    wget (iconPhase w i) j =
      (if peerCond w i j = true then swapIcons (wget w j) else wget w j) := by
  rw [iconPhase, wget_updateAt_ne _ i _ j hne]
  by_cases he : (wget w i).mButtonGroup.isEmpty = true
  · rw [if_pos he]
    by_cases hj : j < w.length
    · rw [childIconPass, wget_mapIdxW _ 0 w j hj]
      by_cases hc : (wget w j).isButton = true ∧ (0 + j) ≠ i ∧
          (wget w j).parent = (wget w i).parent ∧
          (wget w j).flagRadioButton = true ∧ (wget w j).mPushed = true ∧
          (wget w j).isRadioInstance = true
      · rw [if_pos hc, if_pos ((peerCond_empty_iff w i j he).mpr
          ⟨hc.1, by simpa using hc.2.1, hc.2.2.1, hc.2.2.2.1, hc.2.2.2.2.1,
           hc.2.2.2.2.2⟩)]
      · rw [if_neg hc, if_neg (fun hp => by
          obtain ⟨h1, h2, h3, h4, h5, h6⟩ := (peerCond_empty_iff w i j he).mp hp
          exact hc ⟨h1, by simpa using h2, h3, h4, h5, h6⟩)]
    · have hd : wget w j = wdefault := wget_oob w j (Nat.le_of_not_lt hj)
      rw [childIconPass, wget_mapIdxW_oob _ 0 w j (Nat.le_of_not_lt hj),
        if_neg (fun hp => by
          have h5 := ((peerCond_empty_iff w i j he).mp hp).2.2.2.2.1
          rw [hd] at h5
          simp [wdefault] at h5), hd]
  · rw [if_neg he, groupIconPass]
    by_cases hm : j ∈ (wget w i).mButtonGroup
    · rw [wget_groupIconFold_mem i _ w j hm hnd]
      by_cases hc : j ≠ i ∧ (wget w j).flagRadioButton = true ∧
          (wget w j).mPushed = true ∧ (wget w j).isRadioInstance = true
      · rw [if_pos hc, if_pos ((peerCond_group_iff w i j he).mpr
          ⟨hm, hc.1, hc.2.1, hc.2.2.1, hc.2.2.2⟩)]
      · rw [if_neg hc, if_neg (fun hp => by
          obtain ⟨-, h2, h3, h4, h5⟩ := (peerCond_group_iff w i j he).mp hp
          exact hc ⟨h2, h3, h4, h5⟩)]
    · rw [wget_groupIconFold_notmem i _ w j hm,
        if_neg (fun hp => hm ((peerCond_group_iff w i j he).mp hp).1)]

/-- C3.  `toggle()` enumerates group peers using the explicit group list when
it is non-empty and otherwise scanning the parent's children (`peerCond`
encodes this precedence); every other currently-pushed radio button found has
its checked/unchecked icon pair exchanged; this button's own icon pair is
exchanged as well; and the pushed state evolves exactly as under the delegated
base `Button::toggle` (modelled from the spec, see `buttonToggle`), which is
what flips the pushed state. -/
theorem radio_toggle_swaps_and_delegates (w : RWorld) (i : Nat)
    (hi : i < w.length) (hnd : ((wget w i).mButtonGroup).Nodup) :
    ((wget (radioToggle w i) i).mIcon = (wget w i).mOtherIcon ∧
     (wget (radioToggle w i) i).mOtherIcon = (wget w i).mIcon) ∧
    (∀ j, j ≠ i →
       (peerCond w i j = true →
          (wget (radioToggle w i) j).mIcon = (wget w j).mOtherIcon ∧
          (wget (radioToggle w i) j).mOtherIcon = (wget w j).mIcon) ∧
       (peerCond w i j = false →
          (wget (radioToggle w i) j).mIcon = (wget w j).mIcon ∧
          (wget (radioToggle w i) j).mOtherIcon = (wget w j).mOtherIcon)) ∧
    (∀ j, (wget (radioToggle w i) j).mPushed =
          (wget (buttonToggle w i) j).mPushed) := by
  have hic : ∀ j, icons (wget (radioToggle w i) j) =
      icons (wget (iconPhase w i) j) := by
    intro j
    rw [radioToggle_eq_phase]
    exact icons_buttonToggle (iconPhase w i) i j
  refine ⟨?_, ?_, ?_⟩
  · have h1 := hic i
    rw [wget_iconPhase_self w i hi] at h1
    exact ⟨congrArg Prod.fst h1, congrArg Prod.snd h1⟩
  · intro j hne
    have h1 := hic j
    rw [wget_iconPhase_peer w i j hne hnd] at h1
    constructor
    · intro hp
      rw [if_pos hp] at h1
      exact ⟨congrArg Prod.fst h1, congrArg Prod.snd h1⟩
    · intro hp
      rw [if_neg (by simp [hp])] at h1
      exact ⟨congrArg Prod.fst h1, congrArg Prod.snd h1⟩
  · intro j
    rw [radioToggle_eq_phase]
    exact (core_fields _ _ (buttonToggle_core_congr (iconPhase w i) w i
      (length_iconPhase w i) (core_iconPhase w i) j)).2.2.2.2.1

theorem radio_toggle_swaps_and_delegates_witness :
    (0 < wC1.length ∧ ((wget wC1 0).mButtonGroup).Nodup) ∧
    (wget (radioToggle wC1 0) 0).mIcon = (wget wC1 0).mOtherIcon :=
  ⟨⟨by decide, by decide⟩,
   (radio_toggle_swaps_and_delegates wC1 0 (by decide) (by decide)).1.1⟩

/-! The unordered icon pair is preserved by every toggle. -/

theorem iconPair_swapIcons (b : WidgetB) : iconPair (swapIcons b) = iconPair b := by
  rw [iconPair, iconPair, swapIcons]
  rw [← Multiset.cons_zero b.mIcon, ← Multiset.cons_zero b.mOtherIcon]
  exact Multiset.cons_swap _ _ _

theorem iconPair_eq_of_icons (b b' : WidgetB) (h : icons b = icons b') :
    iconPair b = iconPair b' := by
  simp only [icons, Prod.mk.injEq] at h
  rw [iconPair, iconPair, h.1, h.2]

theorem iconPair_updateAt_swap (w : RWorld) (a j : Nat) :
    iconPair (wget (updateAt w a swapIcons) j) = iconPair (wget w j) := by
  by_cases ha : a < w.length
  · by_cases hj : j = a
    · rw [hj, wget_updateAt_self w a _ ha, iconPair_swapIcons]
    · rw [wget_updateAt_ne w a _ j hj]
  · rw [updateAt_oob w a _ (Nat.le_of_not_lt ha)]

theorem iconPair_childIconPass (w : RWorld) (i j : Nat) :
    iconPair (wget (childIconPass w i) j) = iconPair (wget w j) := by
  by_cases hj : j < w.length
  · rw [childIconPass, wget_mapIdxW _ 0 w j hj]
    by_cases hc : (wget w j).isButton = true ∧ (0 + j) ≠ i ∧
        (wget w j).parent = (wget w i).parent ∧
        (wget w j).flagRadioButton = true ∧ (wget w j).mPushed = true ∧
        (wget w j).isRadioInstance = true
    · rw [if_pos hc, iconPair_swapIcons]
    · rw [if_neg hc]
  · rw [childIconPass, wget_mapIdxW_oob _ 0 w j (Nat.le_of_not_lt hj),
      wget_oob w j (Nat.le_of_not_lt hj)]

theorem iconPair_groupIconFold (i : Nat) (g : List Nat) :
    ∀ (w : RWorld) (j : Nat),
    iconPair (wget (g.foldl (groupIconStep i) w) j) = iconPair (wget w j) := by
  induction g with
  | nil => intro w j; rfl
  | cons a t ih =>
    intro w j
    rw [List.foldl_cons, ih, groupIconStep]
    by_cases hc : a ≠ i ∧ (wget w a).flagRadioButton = true ∧
        (wget w a).mPushed = true ∧ (wget w a).isRadioInstance = true
    · rw [if_pos hc, iconPair_updateAt_swap]
    · rw [if_neg hc]

theorem iconPair_radioToggle (w : RWorld) (i j : Nat) :
    iconPair (wget (radioToggle w i) j) = iconPair (wget w j) := by
  rw [radioToggle_eq_phase,
    iconPair_eq_of_icons _ _ (icons_buttonToggle (iconPhase w i) i j),
    iconPhase, iconPair_updateAt_swap]
  by_cases he : (wget w i).mButtonGroup.isEmpty = true
  · rw [if_pos he, iconPair_childIconPass]
  · rw [if_neg he, groupIconPass, iconPair_groupIconFold]

/-- C10.  For every RadioButton and every sequence of `toggle()` calls on any
buttons, the unordered pair of a button's current icon and its stored other
icon is preserved, and a freshly constructed radio button carries exactly the
unordered pair of checked icon and unchecked icon, since `toggle()` only ever
exchanges the two (`Button::toggle`, modelled from the spec, never touches
them). -/
theorem radio_toggle_preserves_icon_pair :
    (∀ (ops : List Nat) (w : RWorld) (j : Nat),
        iconPair (wget (ops.foldl radioToggle w) j) = iconPair (wget w j)) ∧
    (∀ (p : Nat) (c u : Int), iconPair (radioButtonNew p c u) = c ::ₘ {u}) := by
  constructor
  · intro ops
    induction ops with
    | nil => intro w j; rfl
    | cons a t ih =>
      intro w j
      rw [List.foldl_cons, ih, iconPair_radioToggle]
  · intro p c u
    rw [iconPair, radioButtonNew]
    rw [← Multiset.cons_zero u, ← Multiset.cons_zero c]
    exact Multiset.cons_swap _ _ _

/-! Embedding of `Screen` (src/screen.cpp).  Host-API calls are recorded in a
trace; results of host queries (window sizes, window creation, attributes) are
supplied as parameters, since they come from GLFW. -/

/-! The process-wide registry `std::map<GLFWwindow *, Screen *>
__nanogui_screens`, modelled as an association list from window handles
(`Option Nat`, `none` for `nullptr`) to screen identities (`Nat`, a C++
`this` pointer). -/

/-- C2 counterexample.  Calling `setSize` with exactly the currently stored
size still issues a host-API call (`glfwSetWindowSize`): `setSize` has no
short-circuit guard, unlike `setVisible` and `setCaption`, so the claim that
all three short-circuit on an unchanged argument is false. -/
theorem setSize_no_short_circuit_cex :
    sC2.mSize = { x := 5, y := 5 } ∧
    (setSize false sC2 { x := 5, y := 5 }).2 = [HostCall.setWindowSize 5 5] ∧
    (setSize false sC2 { x := 5, y := 5 }).2 ≠ [] := by decide

/-- C2 (amended).  `setVisible` and `setCaption` mutate their state field and
forward the new value to the host window API, short-circuiting (no state
change, no host call) when the argument equals the stored value; `setSize`
stores the new size and forwards it to the host window API unconditionally,
even when the argument equals the stored size (scaled by the pixel ratio on
Windows/Linux). -/
theorem screen_setters_spec (w32lin : Bool) (s : ScreenState) (v : Bool)
    (c : String) (sz : Vec2) :
    ((s.mVisible = v → setVisible s v = (s, [])) ∧
     (s.mVisible ≠ v →
        (setVisible s v).1 = { s with mVisible := v } ∧
        (setVisible s v).2 =
          [if v then HostCall.showWindow else HostCall.hideWindow])) ∧
    ((c = s.mCaption → setCaption s c = (s, [])) ∧
     (c ≠ s.mCaption →
        (setCaption s c).1 = { s with mCaption := c } ∧
        (setCaption s c).2 = [HostCall.setWindowTitle c])) ∧
    ((setSize w32lin s sz).1 = { s with mSize := sz } ∧
     (setSize w32lin s sz).2 ≠ [] ∧
     (setSize w32lin s sz).2 =
       (if w32lin then
          [HostCall.setWindowSize (truncQ ((sz.x : ℚ) * s.mPixelRatio))
             (truncQ ((sz.y : ℚ) * s.mPixelRatio))]
        else [HostCall.setWindowSize sz.x sz.y])) := by
  refine ⟨⟨?_, ?_⟩, ⟨?_, ?_⟩, ?_, ?_, ?_⟩
  · intro h
    simp [setVisible, h]
  · intro h
    simp [setVisible, h]
  · intro h
    simp [setCaption, h]
  · intro h
    simp [setCaption, h]
  · rfl
  · cases w32lin <;> simp [setSize]
  · rfl

theorem screen_setters_spec_witness :
    sC2.mVisible ≠ true ∧
    (setVisible sC2 true).2 = [HostCall.showWindow] ∧
    (setSize false sC2 { x := 6, y := 6 }).2 = [HostCall.setWindowSize 6 6] := by
  refine ⟨by decide, ?_, ?_⟩
  · have h := (screen_setters_spec false sC2 true "" { x := 6, y := 6 }).1.2
      (by decide)
    simpa using h.2
  · have h := (screen_setters_spec false sC2 true "" { x := 6, y := 6 }).2.2.2.2
    simpa using h

/-- C4 counterexample.  First call: the freshly queried framebuffer size is
(0, 0) (a zero-sized event), yet the event is NOT rejected - it is propagated
(returning the handler's `true`) and stores `mFBSize = (0, 0)`, because the
guard checks the previously stored `mFBSize`, not the fresh query.  Second
call: both freshly queried sizes are non-zero, yet the event IS rejected
(returns `false`, no state update, no propagation), because the stored
`mFBSize` is now (0, 0). -/
theorem resize_callback_guard_cex :
    resizeCallbackEvent false reOk vzero { x := 50, y := 50 } sC4a =
      ResizeOutcome.ret true sC4b ∧
    resizeCallbackEvent false reOk { x := 100, y := 100 } { x := 50, y := 50 }
      sC4b = ResizeOutcome.ret false sC4b ∧
    ({ x := 100, y := 100 } : Vec2) ≠ vzero ∧
    ({ x := 50, y := 50 } : Vec2) ≠ vzero := by decide

/-- C4 (amended).  `resizeCallbackEvent` returns `false` without updating
state or invoking the widget-tree handler whenever the freshly queried
(platform-adjusted) window size is `(0, 0)` OR the previously stored
framebuffer size `mFBSize` is `(0, 0)` (the fresh framebuffer query is not
checked); otherwise it stores the freshly queried framebuffer and window
sizes and propagates the resize via `resizeEvent`, returning its result. -/
theorem resize_callback_spec (w32lin : Bool) (re : Vec2 → Except String Bool)
    (fbQ winQ : Vec2) (s : ScreenState) :
    (s.mFBSize = vzero ∨ sizeAfter w32lin winQ s = vzero →
       resizeCallbackEvent w32lin re fbQ winQ s = ResizeOutcome.ret false s) ∧
    (∀ b : Bool, s.mFBSize ≠ vzero → sizeAfter w32lin winQ s ≠ vzero →
       re (sizeAfter w32lin winQ s) = Except.ok b →
       resizeCallbackEvent w32lin re fbQ winQ s =
         ResizeOutcome.ret b
           { s with mFBSize := fbQ, mSize := sizeAfter w32lin winQ s }) := by
  constructor
  · intro h
    rw [resizeCallbackEvent]
    simp only [if_pos h]
  · intro b h1 h2 h3
    rw [resizeCallbackEvent]
    simp only [if_neg (by tauto : ¬(s.mFBSize = vzero ∨
      sizeAfter w32lin winQ s = vzero))]
    rw [h3]

theorem resize_callback_spec_witness :
    sC4b.mFBSize = vzero ∧
    resizeCallbackEvent false reOk { x := 100, y := 100 } { x := 50, y := 50 }
      sC4b = ResizeOutcome.ret false sC4b ∧
    resizeCallbackEvent false reOk { x := 90, y := 90 } { x := 40, y := 40 }
      sC4a = ResizeOutcome.ret true
        { sC4a with
            mFBSize := { x := 90, y := 90 }, mSize := { x := 40, y := 40 } } := by
  refine ⟨by decide, ?_, ?_⟩
  · exact (resize_callback_spec false reOk { x := 100, y := 100 }
      { x := 50, y := 50 } sC4b).1 (Or.inl (by decide))
  · have h := (resize_callback_spec false reOk { x := 90, y := 90 }
      { x := 40, y := 40 } sC4a).2 true (by decide) (by decide) rfl
    simpa [sizeAfter] using h

/-- C5.  When the widget-tree resize handler invoked from
`resizeCallbackEvent` throws, the exception is caught and escalated to a
process abort; the call neither returns normally nor propagates the exception
(the embedding is total, so the only outcomes are `ret` and `abort`). -/
theorem resize_exception_aborts (w32lin : Bool) (re : Vec2 → Except String Bool)
    (fbQ winQ : Vec2) (s : ScreenState) (msg : String)
    (hfb : s.mFBSize ≠ vzero) (hsz : sizeAfter w32lin winQ s ≠ vzero)
    (he : re (sizeAfter w32lin winQ s) = Except.error msg) :
    resizeCallbackEvent w32lin re fbQ winQ s =
      ResizeOutcome.abort ("Caught exception in event handler: " ++ msg) ∧
    ∀ (b : Bool) (s' : ScreenState),
      resizeCallbackEvent w32lin re fbQ winQ s ≠ ResizeOutcome.ret b s' := by
  have h : resizeCallbackEvent w32lin re fbQ winQ s =
      ResizeOutcome.abort ("Caught exception in event handler: " ++ msg) := by
    rw [resizeCallbackEvent]
    simp only [if_neg (by tauto : ¬(s.mFBSize = vzero ∨
      sizeAfter w32lin winQ s = vzero))]
    rw [he]
  exact ⟨h, fun b s' hc => by rw [h] at hc; exact ResizeOutcome.noConfusion hc⟩

theorem resize_exception_aborts_witness :
    sC4a.mFBSize ≠ vzero ∧
    resizeCallbackEvent false reErr { x := 90, y := 90 } { x := 40, y := 40 }
      sC4a = ResizeOutcome.abort "Caught exception in event handler: boom" := by
  refine ⟨by decide, ?_⟩
  have h := (resize_exception_aborts false reErr { x := 90, y := 90 }
    { x := 40, y := 40 } sC4a "boom" (by decide) (by decide) rfl).1
  simpa using h

/-- The draw trace of `drawAll`, read off the definition. -/
theorem drawAll_fst (w32lin : Bool) (fbQ winQ : Vec2) (s : ScreenState) :
    (drawAll w32lin fbQ winQ s).1 =
      [HostCall.clearColor, HostCall.clearBuffers, HostCall.makeContextCurrent,
       HostCall.getFramebufferSize, HostCall.getWindowSize, HostCall.viewport,
       HostCall.drawContents] ++
      (if s.mVisible then [HostCall.drawWidgets] else []) ++
      [HostCall.swapBuffers] := rfl

/-- C6 counterexample.  In `drawAll`'s trace at a concrete input the buffer
clear precedes the framebuffer/window-size recomputation, not the other way
round as the claim's ordering states. -/
theorem drawAll_order_cex :
    callBefore (drawAll false { x := 100, y := 100 } { x := 50, y := 50 } sC6).1
      HostCall.getFramebufferSize HostCall.clearBuffers = false ∧
    callBefore (drawAll false { x := 100, y := 100 } { x := 50, y := 50 } sC6).1
      HostCall.clearBuffers HostCall.getFramebufferSize = true := by decide

/-- C6 (amended).  `drawAll` performs, in order: set the clear colour and
clear the buffer, make the context current, recompute the framebuffer and
window sizes from the host window (re-deriving the pixel ratio from their
quotient on platforms without an explicit DPI API, when the queried width is
non-zero), set the viewport, invoke content drawing, invoke widget drawing
only when the screen is visible, and swap buffers. -/
theorem drawAll_spec (w32lin : Bool) (fbQ winQ : Vec2) (s : ScreenState) :
    callBefore (drawAll w32lin fbQ winQ s).1 HostCall.clearColor
      HostCall.clearBuffers = true ∧
    callBefore (drawAll w32lin fbQ winQ s).1 HostCall.clearBuffers
      HostCall.makeContextCurrent = true ∧
    callBefore (drawAll w32lin fbQ winQ s).1 HostCall.makeContextCurrent
      HostCall.getFramebufferSize = true ∧
    callBefore (drawAll w32lin fbQ winQ s).1 HostCall.getFramebufferSize
      HostCall.getWindowSize = true ∧
    callBefore (drawAll w32lin fbQ winQ s).1 HostCall.getWindowSize
      HostCall.drawContents = true ∧
    callBefore (drawAll w32lin fbQ winQ s).1 HostCall.drawContents
      HostCall.swapBuffers = true ∧
    (s.mVisible = true →
       callBefore (drawAll w32lin fbQ winQ s).1 HostCall.drawContents
         HostCall.drawWidgets = true ∧
       callBefore (drawAll w32lin fbQ winQ s).1 HostCall.drawWidgets
         HostCall.swapBuffers = true) ∧
    (s.mVisible = false →
       occursIn (drawAll w32lin fbQ winQ s).1 HostCall.drawWidgets = false) ∧
    (w32lin = false →
       (drawAll w32lin fbQ winQ s).2.mSize = winQ ∧
       (drawAll w32lin fbQ winQ s).2.mFBSize = fbQ ∧
       (winQ.x ≠ 0 →
          (drawAll w32lin fbQ winQ s).2.mPixelRatio =
            (fbQ.x : ℚ) / (winQ.x : ℚ)) ∧
       (winQ.x = 0 →
          (drawAll w32lin fbQ winQ s).2.mPixelRatio = s.mPixelRatio)) ∧
    (w32lin = true →
       (drawAll w32lin fbQ winQ s).2.mSize = vdivTrunc winQ s.mPixelRatio ∧
       (drawAll w32lin fbQ winQ s).2.mFBSize =
         vmulTrunc (vdivTrunc winQ s.mPixelRatio) s.mPixelRatio ∧
       (drawAll w32lin fbQ winQ s).2.mPixelRatio = s.mPixelRatio) := by
  refine ⟨?_, ?_, ?_, ?_, ?_, ?_, ?_, ?_, ?_, ?_⟩
  · rw [drawAll_fst]; cases hv : s.mVisible <;> simp [hv] <;> decide
  · rw [drawAll_fst]; cases hv : s.mVisible <;> simp [hv] <;> decide
  · rw [drawAll_fst]; cases hv : s.mVisible <;> simp [hv] <;> decide
  · rw [drawAll_fst]; cases hv : s.mVisible <;> simp [hv] <;> decide
  · rw [drawAll_fst]; cases hv : s.mVisible <;> simp [hv] <;> decide
  · rw [drawAll_fst]; cases hv : s.mVisible <;> simp [hv] <;> decide
  · intro hv
    rw [drawAll_fst]
    simp [hv]
    exact ⟨by decide, by decide⟩
  · intro hv
    rw [drawAll_fst]
    simp [hv]
    decide
  · intro hw
    subst hw
    refine ⟨rfl, rfl, ?_, ?_⟩
    · intro hx
      simp [drawAll, hx]
    · intro hx
      simp [drawAll, hx]
  · intro hw
    subst hw
    exact ⟨rfl, rfl, rfl⟩

theorem drawAll_spec_witness :
    sC6.mVisible = true ∧
    callBefore (drawAll false { x := 100, y := 100 } { x := 50, y := 50 } sC6).1
      HostCall.drawContents HostCall.drawWidgets = true ∧
    (drawAll false { x := 100, y := 100 } { x := 50, y := 50 } sC6).2.mPixelRatio
      = (((100 : Int) : ℚ) / ((50 : Int) : ℚ)) := by
  obtain ⟨-, -, -, -, -, -, h7, -, h9, -⟩ :=
    drawAll_spec false { x := 100, y := 100 } { x := 50, y := 50 } sC6
  exact ⟨rfl, (h7 rfl).1, (h9 rfl).2.2.1 (by decide)⟩

/-! Association-list lemmas for the screen registry. -/

theorem regFind_insert_self (r : Registry) (k : Option Nat) (v : Nat) :
    regFind (regInsert r k v) k = some v := by
  induction r with
  | nil => simp [regInsert, regFind]
  | cons p t ih =>
    rw [regInsert]
    by_cases hp : p.1 = k
    · rw [if_pos hp, regFind, if_pos rfl]
    · rw [if_neg hp, regFind, if_neg hp, ih]

theorem regFind_erase_self (r : Registry) (k : Option Nat) :
    regFind (regErase r k) k = none := by
  induction r with
  | nil => rfl
  | cons p t ih =>
    rw [regErase]
    by_cases hp : p.1 = k
    · rw [if_pos hp]
      exact ih
    · rw [if_neg hp, regFind, if_neg hp]
      exact ih

theorem regFind_erase_ne (r : Registry) (k k' : Option Nat) (h : k' ≠ k) :
    regFind (regErase r k) k' = regFind r k' := by
  induction r with
  | nil => rfl
  | cons p t ih =>
    rw [regErase]
    by_cases hp : p.1 = k
    · rw [if_pos hp, ih, regFind,
        if_neg (by rw [hp]; exact fun hc => h hc.symm)]
    · rw [if_neg hp, regFind, regFind]
      by_cases hq : p.1 = k'
      · rw [if_pos hq, if_pos hq]
      · rw [if_neg hq, if_neg hq, ih]

/-- C7.  For every successful construction with the size/caption/attribute
constructor, a live native window exists on return (`mGLFWWindow` holds the
handle `glfwCreateWindow` produced), the screen is registered in the
process-wide handle registry under that handle, and every host input callback
kind on that window is routed back to this screen (when its `mProcessEvents`
flag is set, as each callback lambda checks). -/
theorem screen_ctor_registers_and_routes (self : Nat) (h : HostCtx)
    (size : Vec2) (caption : String) (fullscreen : Bool) (glMajor glMinor : Nat)
    (r : Registry) (s' : ScreenState) (r' : Registry) (procE : Nat → Bool)
    (hok : screenCtor self h size caption fullscreen glMajor glMinor r =
      Except.ok (s', r'))
    (hpe : procE self = true) :
    ∃ win, s'.mGLFWWindow = some win ∧ h.createdWindow = some win ∧
      regFind r' (some win) = some self ∧
      ∀ k : InputKind, routeCallback r' procE k win = some self := by
  rw [screenCtor] at hok
  split at hok
  · exact Except.noConfusion hok
  · rename_i win heq
    split at hok
    · exact Except.noConfusion hok
    · have hpair := Except.ok.inj hok
      have hs : s' = (screenInit self h win true _ r).1 :=
        (congrArg Prod.fst hpair).symm
      have hr : r' = regInsert r (some win) self :=
        (congrArg Prod.snd hpair).symm
      refine ⟨win, ?_, heq, ?_, ?_⟩
      · rw [hs]; rfl
      · rw [hr]; exact regFind_insert_self r (some win) self
      · intro k
        rw [routeCallback, hr, regFind_insert_self r (some win) self]
        simp [hpe]

theorem screen_ctor_registers_and_routes_witness :
    screenCtor 7 hC7 { x := 50, y := 50 } "demo" false 3 3 [] =
      Except.ok (sC7, rC7) ∧
    ∃ win, sC7.mGLFWWindow = some win ∧ hC7.createdWindow = some win ∧
      regFind rC7 (some win) = some 7 ∧
      ∀ k : InputKind, routeCallback rC7 (fun _ => true) k win = some 7 :=
  ⟨by rfl,
   screen_ctor_registers_and_routes 7 hC7 { x := 50, y := 50 } "demo" false 3 3
     [] sC7 rC7 (fun _ => true) (by rfl) rfl⟩

/-- C8.  Destruction removes this screen's entry from the global
handle-to-screen map (leaving every other key untouched), destroys exactly
the non-null cursors it owns, and destroys the native window precisely when
one exists and the ownership flag `mShutdownGLFWOnDestruct` is set; the
self-creating constructor sets that flag (so its window is destroyed), while
`initialize` with an externally supplied window and
`shutdownGLFWOnDestruct = false` leaves it unset (so the external window is
not destroyed). -/
theorem screen_destruct_spec (s : ScreenState) (r : Registry) :
    regFind (screenDestruct s r).1 s.mGLFWWindow = none ∧
    (∀ k, k ≠ s.mGLFWWindow →
       regFind (screenDestruct s r).1 k = regFind r k) ∧
    (∀ c, c ∈ (screenDestruct s r).2.1 ↔ some c ∈ s.mCursors) ∧
    ((screenDestruct s r).2.2 = true ↔
       s.mGLFWWindow.isSome = true ∧ s.mShutdownGLFWOnDestruct = true) ∧
    (∀ (self : Nat) (h : HostCtx) (size : Vec2) (caption : String)
        (fullscreen : Bool) (glMajor glMinor : Nat) (r0 : Registry)
        (s' : ScreenState) (r' : Registry),
       screenCtor self h size caption fullscreen glMajor glMinor r0 =
         Except.ok (s', r') →
       s'.mShutdownGLFWOnDestruct = true ∧ (screenDestruct s' r).2.2 = true) ∧
    (∀ (self : Nat) (h : HostCtx) (win : Nat) (s0 : ScreenState)
        (r0 : Registry),
       (screenInit self h win false s0 r0).1.mShutdownGLFWOnDestruct = false ∧
       (screenDestruct (screenInit self h win false s0 r0).1 r).2.2 = false) := by
  refine ⟨?_, ?_, ?_, ?_, ?_, ?_⟩
  · exact regFind_erase_self r s.mGLFWWindow
  · intro k hk
    exact regFind_erase_ne r s.mGLFWWindow k hk
  · intro c
    simp [screenDestruct, List.mem_filterMap]
  · simp [screenDestruct, Bool.and_eq_true]
  · intro self h size caption fullscreen glMajor glMinor r0 s' r' hok
    rw [screenCtor] at hok
    split at hok
    · exact Except.noConfusion hok
    · split at hok
      · exact Except.noConfusion hok
      · have hpair := Except.ok.inj hok
        have hs : s' = (screenInit self h _ true _ r0).1 :=
          (congrArg Prod.fst hpair).symm
        rw [hs]
        exact ⟨rfl, rfl⟩
  · intro self h win s0 r0
    exact ⟨rfl, rfl⟩

theorem screen_destruct_spec_witness :
    regFind (screenDestruct sC7 rC7).1 sC7.mGLFWWindow = none ∧
    (screenDestruct sC7 rC7).2.1 = [1, 3] ∧
    sC7.mShutdownGLFWOnDestruct = true ∧
    (screenDestruct sC7 rC7).2.2 = true := by
  refine ⟨(screen_destruct_spec sC7 rC7).1, by decide, ?_⟩
  have h5 := (screen_destruct_spec sC7 rC7).2.2.2.2.1
  exact h5 7 hC7 { x := 50, y := 50 } "demo" false 3 3 [] sC7 rC7 (by rfl)

/-- C9.  When window/context creation fails (`glfwCreateWindow` returns null)
or the GL loader initialisation fails, the constructor reports the failure by
throwing an error and does not return a constructed screen. -/
theorem screen_ctor_failure_throws (self : Nat) (h : HostCtx) (size : Vec2)
    (caption : String) (fullscreen : Bool) (glMajor glMinor : Nat)
    (r : Registry)
    (hf : h.createdWindow = none ∨
          (h.gladRequired = true ∧ h.gladOk = false)) :
    (∃ msg, screenCtor self h size caption fullscreen glMajor glMinor r =
       Except.error msg) ∧
    ∀ (s' : ScreenState) (r' : Registry),
      screenCtor self h size caption fullscreen glMajor glMinor r ≠
        Except.ok (s', r') := by
  have hmsg : ∃ msg,
      screenCtor self h size caption fullscreen glMajor glMinor r =
        Except.error msg := by
    cases hcw : h.createdWindow with
    | none => exact ⟨_, by rw [screenCtor, hcw]⟩
    | some win =>
      rcases hf with hc | ⟨hg1, hg2⟩
      · rw [hcw] at hc
        exact Option.noConfusion hc
      · refine ⟨"Could not initialize GLAD!", ?_⟩
        rw [screenCtor, hcw]
        simp [hg1, hg2]
  obtain ⟨msg, hm⟩ := hmsg
  refine ⟨⟨msg, hm⟩, fun s' r' hc => ?_⟩
  rw [hm] at hc
  exact Except.noConfusion hc

theorem screen_ctor_failure_throws_witness :
    hC9.createdWindow = none ∧
    ∃ msg, screenCtor 7 hC9 { x := 50, y := 50 } "demo" false 3 3 [] =
      Except.error msg :=
  ⟨rfl,
   (screen_ctor_failure_throws 7 hC9 { x := 50, y := 50 } "demo" false 3 3 []
     (Or.inl rfl)).1⟩
